import Mathlib

/-!
Shallow embedding of the `log` package of osintami/sloan (src/log/log.go).

The package is a structured-logging facility: a process-wide severity bitmask
filters events, and a fluent per-event builder accumulates pre-rendered
JSON-fragment strings that finalization joins into one JSON line written to
standard error and/or an open log file.

Modelling conventions:
* The Go globals `LOG_FH`, `LOG_FILE`, `LOG_LEVEL`, `LOG_STDERR` become the
  `LogState` record, threaded explicitly.
* Writing to a sink is modelled by returning the bytes that the call would
  write to each sink (`Output`), `none` when nothing is written there.
* `time.Now().Format(time.RFC3339)` is modelled by a `now : String` parameter:
  the timestamp text as rendered at finalization time.
* A Go `error` value is `Option String`: `none` is `nil`, `some s` an error
  whose `Error()` method yields `s`.  A Go `float32` is abstracted by the text
  its `%f` formatting produces (`GoFloat32`), since only that rendered text
  reaches the builder.  Go `int`/`int64` become `Int`; `%d` prints the decimal
  form with a leading minus for negatives, which is exactly `toString : Int →
  String`.
* Literal braces inside Lean string literals are written with the escapes
  `\x7b` and `\x7d`.
-/

namespace SloanLog

/-- Alias for `Int`, usable after `Logger.Int` shadows the bare name inside
this namespace.  Go `int`/`int64` values are embedded as unbounded integers:
the claims only concern their decimal rendering. -/
abbrev GoInt := Int

/-- Alias for `Bool`, usable after `Logger.Bool` shadows the bare name inside
this namespace. -/
abbrev GoBool := Bool

/-- Severity bit values (log.go lines 13-19). -/
def LOG_TRACE : Nat := 0xFF

/-- Fatal's sentinel value, zero (log.go line 15). -/
def LOG_FATAL : Nat := 0x00

/-- Info bit (log.go line 16). -/
def LOG_INFO : Nat := 0x04

/-- Warn bit (log.go line 17). -/
def LOG_WARN : Nat := 0x02

/-- Error bit (log.go line 18). -/
def LOG_ERROR : Nat := 0x01

/-- The per-event builder, Go `type Logger struct` (log.go 31-34): an ordered
list of pre-rendered key/value fragments and an ignore flag. -/
structure Logger where
  parts : List String
  ignore : Bool
deriving DecidableEq, Repr

/-- An open file handle; its identity is irrelevant to the claims, only
whether one is present (`Option FileHandle` models the nilable `*os.File`). -/
structure FileHandle where
  id : Nat
deriving DecidableEq, Repr

/-- The process-wide mutable globals of log.go lines 37-40. -/
structure LogState where
  LOG_FH : Option FileHandle
  LOG_FILE : String
  LOG_LEVEL : Nat
  LOG_STDERR : Bool
deriving DecidableEq, Repr

/-- The globals' initial values (log.go 37-40): no file handle, empty path,
mask `LOG_ERROR`, stderr enabled. -/
def defaultState : LogState :=
  { LOG_FH := none, LOG_FILE := "", LOG_LEVEL := LOG_ERROR, LOG_STDERR := true }

/-- Bytes written by one finalization call: what goes to standard error and
what goes to the log file (`none` = nothing written to that sink). -/
structure Output where
  toStderr : Option String
  toFile : Option String
deriving DecidableEq, Repr

/-- The silent output: nothing written anywhere. -/
def Output.none : Output := { toStderr := Option.none, toFile := Option.none }

/-- `NewLogger` (log.go 84-91): fresh builder, marked ignore unless the mask
bitwise-contains the severity bits (`LOG_LEVEL&level != level`). -/
def NewLogger (LOG_LEVEL : Nat) (level : Nat) : Logger :=
  let x : Logger := { parts := [], ignore := false }
  if LOG_LEVEL &&& level ≠ level then { x with ignore := true } else x

/-- `Info` (log.go 93-100): builder gated on `LOG_INFO`, seeded with the
level fragment when active. -/
def Info (LOG_LEVEL : Nat) : Logger :=
  let x := NewLogger LOG_LEVEL LOG_INFO
  if x.ignore then x else { x with parts := x.parts ++ ["\"level\":\"info\""] }

/-- `Warn` (log.go 102-109). -/
def Warn (LOG_LEVEL : Nat) : Logger :=
  let x := NewLogger LOG_LEVEL LOG_WARN
  if x.ignore then x else { x with parts := x.parts ++ ["\"level\":\"warn\""] }

/-- `Error` (log.go 111-118). -/
def Error (LOG_LEVEL : Nat) : Logger :=
  let x := NewLogger LOG_LEVEL LOG_ERROR
  if x.ignore then x else { x with parts := x.parts ++ ["\"level\":\"error\""] }

/-- `Fatal` (log.go 120-124): built directly, never consulting `LOG_LEVEL`
and never marked ignore. -/
def Fatal : Logger :=
  { parts := [] ++ ["\"level\":\"fatal\""], ignore := false }

/-- `Debug` (log.go 126-133): gated on the all-bits value `LOG_TRACE`. -/
def Debug (LOG_LEVEL : Nat) : Logger :=
  let x := NewLogger LOG_LEVEL LOG_TRACE
  if x.ignore then x else { x with parts := x.parts ++ ["\"level\":\"debug\""] }

/-- The fragment `"key":"value"` produced by `fmt.Sprintf("\"%s\":\"%s\"", key, value)`
and its `%d`/`%t`/`%f` siblings: both key and rendered value double-quote
delimited, no escaping. -/
def frag (key value : String) : String :=
  "\"" ++ key ++ "\":\"" ++ value ++ "\""

/-- `(*Logger).Str` (log.go 144-150). -/
def Logger.Str (x : Logger) (key value : String) : Logger :=
  if x.ignore then x else { x with parts := x.parts ++ [frag key value] }

/-- `(*Logger).Err` (log.go 136-142): skipped when ignored or when the error
is nil; otherwise appends `"error":"<err.Error()>"`. -/
def Logger.Err (x : Logger) (err : Option String) : Logger :=
  if x.ignore ∨ err = Option.none then x
  else
    match err with
    | Option.none => x
    | some s => { x with parts := x.parts ++ [frag "error" s] }

/-- `(*Logger).Bool` (log.go 152-158): `%t` renders `true`/`false`. -/
def Logger.Bool (x : Logger) (key : String) (value : Bool) : Logger :=
  if x.ignore then x
  else { x with parts := x.parts ++ [frag key (if value then "true" else "false")] }

/-- `(*Logger).Int` (log.go 160-166): `%d` on a Go `int` is the decimal form,
`toString` on `Int`. -/
def Logger.Int (x : Logger) (key : String) (value : GoInt) : Logger :=
  if x.ignore then x else { x with parts := x.parts ++ [frag key (toString value)] }

/-- `(*Logger).Int64` (log.go 168-174): same rendering as `Int`. -/
def Logger.Int64 (x : Logger) (key : String) (value : GoInt) : Logger :=
  if x.ignore then x else { x with parts := x.parts ++ [frag key (toString value)] }

/-- A Go `float32` abstracted by the text its `%f` formatting produces; the
builder only ever sees that rendered decimal text. -/
structure GoFloat32 where
  fmtF : String
deriving DecidableEq, Repr

/-- `(*Logger).Float` (log.go 176-182). -/
def Logger.Float (x : Logger) (key : String) (value : GoFloat32) : Logger :=
  if x.ignore then x else { x with parts := x.parts ++ [frag key value.fmtF] }

/-- The byte sequence `Msg` builds in its buffer (log.go 189-198): opening
brace, time field, each fragment followed by a comma, the message field,
closing brace, newline.  Written as the source writes it: sequential appends
into an accumulator. -/
def renderLine (parts : List String) (now msg : String) : String :=
  let b := "\x7b"
  let b := b ++ ("\"time\":\"" ++ now ++ "\",")
  let b := parts.foldl (fun acc item => acc ++ item ++ ",") b
  let b := b ++ ("\"message\":\"" ++ msg ++ "\"")
  let b := b ++ "\x7d"
  b ++ "\n"

/-- `(*Logger).Msg` (log.go 184-207): nothing happens on an ignored builder;
otherwise the rendered line goes to stderr when `LOG_STDERR` is set and to
the file when `LOG_FH` is non-nil.  `now` is the RFC3339 text of
`time.Now()` taken at this call. -/
def Logger.Msg (x : Logger) (msg now : String) (LOG_STDERR : GoBool)
    (LOG_FH : Option FileHandle) : Output :=
  if x.ignore then Output.none
  else
    let out := renderLine x.parts now msg
    { toStderr := if LOG_STDERR then some out else Option.none
      toFile := match LOG_FH with
        | some _ => some out
        | Option.none => Option.none }

/-- `strings.ToLower` as used by `InitLogger`: lower-cases every character.
(Go handles full Unicode; the comparisons in the switch only involve ASCII
names, on which per-character `Char.toLower` agrees with Go.) -/
def goToLower (s : String) : String := ⟨s.data.map Char.toLower⟩

/-- The `switch strings.ToLower(level)` of `InitLogger` (log.go 47-58): a
sequential comparison against the five recognized names; no default case, so
an unrecognized name leaves the previous mask. -/
def switchLevel (prev : Nat) (level : String) : Nat :=
  if goToLower level = "trace" then LOG_TRACE
  else if goToLower level = "debug" then LOG_TRACE
  else if goToLower level = "error" then LOG_ERROR
  else if goToLower level = "warn" then LOG_ERROR ||| LOG_WARN
  else if goToLower level = "info" then LOG_ERROR ||| LOG_WARN ||| LOG_INFO
  else prev

/-- `InitLogger` (log.go 42-78).  The filesystem interaction of lines 60-75
is abstracted by `fhOpened`: the handle that the `os.Create`/`os.OpenFile`
branch leaves in `LOG_FH` (`none` when that I/O failed), used only when
`file` is nonempty — on failure Go's multi-assignment stores `nil` in
`LOG_FH`.  Returns the new global state together with the output of the
startup `Info` event of line 77, which runs after the mask is set. -/
def InitLogger (st : LogState) (path file level : String) (standardError : GoBool)
    (fhOpened : Option FileHandle) (now : String) : LogState × Output :=
  let LOG_FILE := path ++ "/" ++ file
  let LOG_LEVEL := switchLevel st.LOG_LEVEL level
  let LOG_FH := if file ≠ "" then fhOpened else st.LOG_FH
  let st1 : LogState :=
    { LOG_FH := LOG_FH, LOG_FILE := LOG_FILE,
      LOG_LEVEL := LOG_LEVEL, LOG_STDERR := standardError }
  let startup :=
    ((((Info st1.LOG_LEVEL).Str "component" "osintami").Str "level" level).Str
        "file" st1.LOG_FILE).Msg "logging started" now st1.LOG_STDERR st1.LOG_FH
  (st1, startup)

/-- `LogFile` (log.go 80-82). -/
def LogFile (st : LogState) : String := st.LOG_FILE

/-- Result of a `(*os.File).Close` call site: either the call returned
normally (carrying a nil or non-nil Go error), or it faulted at runtime
(a nil-pointer dereference / panic). -/
inductive CloseOutcome where
  | returned (err : Option String)
  | fault
deriving DecidableEq, Repr

/-- Go standard-library contract of `(*os.File).Close`: the `os` package
documents that methods on `File` return `ErrInvalid` ("invalid argument")
when the receiver is nil, instead of dereferencing it; on an open handle the
close returns a nil error.  No fault is possible. -/
def osFileClose : Option FileHandle → CloseOutcome
  | Option.none => CloseOutcome.returned (some "invalid argument")
  | some _ => CloseOutcome.returned Option.none

/-- `Shutdown` (log.go 209-211): calls `LOG_FH.Close()` unconditionally and
discards its error result. -/
def Shutdown (st : LogState) : CloseOutcome := osFileClose st.LOG_FH

/-- Concatenation of a fragment list, each fragment followed by a comma, in
list order: the closed form of the comma loop inside `Msg`. -/
def commaJoined : List String → String
  | [] => ""
  | p :: ps => p ++ "," ++ commaJoined ps

theorem foldl_comma (ps : List String) (b : String) :
    ps.foldl (fun acc item => acc ++ item ++ ",") b = b ++ commaJoined ps := by
  induction ps generalizing b with
  | nil => simp [commaJoined]
  | cons p ps ih =>
    rw [List.foldl_cons, ih]
    simp [commaJoined, String.append_assoc]

theorem renderLine_eq (parts : List String) (now msg : String) :
    renderLine parts now msg
      = "\x7b" ++ ("\"time\":\"" ++ now ++ "\",") ++ commaJoined parts
          ++ ("\"message\":\"" ++ msg ++ "\"") ++ "\x7d" ++ "\n" := by
  simp only [renderLine]
  rw [foldl_comma]

theorem foldl_str_active (kvs : List (String × String)) (x : Logger)
    (h : x.ignore = false) :
    kvs.foldl (fun b kv => b.Str kv.1 kv.2) x
      = { parts := x.parts ++ kvs.map (fun kv => frag kv.1 kv.2), ignore := false } := by
  induction kvs generalizing x with
  | nil =>
    cases x with
    | mk parts ignore =>
      simp only at h
      simp [h]
  | cons kv kvs ih =>
    have hstr : x.Str kv.1 kv.2 = { parts := x.parts ++ [frag kv.1 kv.2], ignore := false } := by
      cases x with
      | mk parts ignore =>
        simp only at h
        simp [Logger.Str, h]
    rw [List.foldl_cons, hstr, ih _ rfl]
    simp

theorem switchLevel_unrecognized (prev : Nat) (s : String)
    (h : goToLower s ∉ (["trace", "debug", "error", "warn", "info"] : List String)) :
    switchLevel prev s = prev := by
  simp only [List.mem_cons, List.not_mem_nil, or_false, not_or] at h
  obtain ⟨h1, h2, h3, h4, h5⟩ := h
  simp [switchLevel, h1, h2, h3, h4, h5]

/-- C1: a builder constructed for severity info, warn, error or debug
produces visible output on finalization if and only if the process-wide mask
bitwise-contains the severity's bit pattern (`mask &&& bit = bit`, Debug
being gated on the all-bits value `LOG_TRACE`); the Fatal builder never
consults the mask and always produces output. -/
theorem severity_constructors_gate_on_mask (mask : Nat) (msg now : String)
    (fh : Option FileHandle) :
    (((Info mask).Msg msg now true fh).toStderr ≠ Option.none
        ↔ mask &&& LOG_INFO = LOG_INFO) ∧
    (((Warn mask).Msg msg now true fh).toStderr ≠ Option.none
        ↔ mask &&& LOG_WARN = LOG_WARN) ∧
    (((Error mask).Msg msg now true fh).toStderr ≠ Option.none
        ↔ mask &&& LOG_ERROR = LOG_ERROR) ∧
    (((Debug mask).Msg msg now true fh).toStderr ≠ Option.none
        ↔ mask &&& LOG_TRACE = LOG_TRACE) ∧
    (Fatal.Msg msg now true fh).toStderr ≠ Option.none := by
  refine ⟨?_, ?_, ?_, ?_, ?_⟩
  · by_cases h : mask &&& LOG_INFO = LOG_INFO
    · simp [Info, NewLogger, Logger.Msg, Output.none, h]
    · simp [Info, NewLogger, Logger.Msg, Output.none, h]
  · by_cases h : mask &&& LOG_WARN = LOG_WARN
    · simp [Warn, NewLogger, Logger.Msg, Output.none, h]
    · simp [Warn, NewLogger, Logger.Msg, Output.none, h]
  · by_cases h : mask &&& LOG_ERROR = LOG_ERROR
    · simp [Error, NewLogger, Logger.Msg, Output.none, h]
    · simp [Error, NewLogger, Logger.Msg, Output.none, h]
  · by_cases h : mask &&& LOG_TRACE = LOG_TRACE
    · simp [Debug, NewLogger, Logger.Msg, Output.none, h]
    · simp [Debug, NewLogger, Logger.Msg, Output.none, h]
  · simp [Fatal, Logger.Msg]

/-- C2: initialization maps the level name, case-insensitively, to the mask:
"trace" and "debug" set all bits (0xFF), "error" sets 0x01, "warn" sets
0x03, "info" sets 0x07, and any other name leaves the mask unchanged without
an error. -/
theorem initLogger_level_name_mapping (prev : Nat) (s : String) :
    (goToLower s = "trace" → switchLevel prev s = 0xFF) ∧
    (goToLower s = "debug" → switchLevel prev s = 0xFF) ∧
    (goToLower s = "error" → switchLevel prev s = 0x01) ∧
    (goToLower s = "warn" → switchLevel prev s = 0x03) ∧
    (goToLower s = "info" → switchLevel prev s = 0x07) ∧
    (goToLower s ∉ (["trace", "debug", "error", "warn", "info"] : List String) →
      switchLevel prev s = prev) := by
  refine ⟨fun h => ?_, fun h => ?_, fun h => ?_, fun h => ?_, fun h => ?_,
    fun h => switchLevel_unrecognized prev s h⟩
  · simp [switchLevel, h, LOG_TRACE]
  · simp [switchLevel, h, LOG_TRACE]
  · simp [switchLevel, h, LOG_ERROR]
  · simp [switchLevel, h, LOG_ERROR, LOG_WARN]
  · simp [switchLevel, h, LOG_ERROR, LOG_WARN, LOG_INFO]

/-- Witness for C2 at concrete inputs. -/
theorem initLogger_level_name_mapping_witness :
    switchLevel 5 "WARN" = 0x03 ∧ switchLevel 5 "unknown" = 5 := by
  constructor
  · exact (initLogger_level_name_mapping 5 "WARN").2.2.2.1 (by decide)
  · exact (initLogger_level_name_mapping 5 "unknown").2.2.2.2.2 (by decide)

/-- C3 counterexample: after a prior initialization with "info", a second
initialization with the unrecognized name "bogus" leaves the mask at 0x07,
not at the Error-only default 0x01. -/
theorem unrecognized_level_after_prior_init_counterexample :
    (InitLogger (InitLogger defaultState "/tmp" "app.log" "info" true Option.none "T").1
        "/tmp" "app.log" "bogus" true Option.none "T").1.LOG_LEVEL = 0x07 ∧
    (0x07 : Nat) ≠ LOG_ERROR := by decide

/-- C3 (amended): an unrecognized level name leaves the mask at its prior
value; in particular, starting from the default state (no prior
initialization) the mask stays at the Error-only default 0x01. -/
theorem unrecognized_level_preserves_mask (s : String)
    (h : goToLower s ∉ (["trace", "debug", "error", "warn", "info"] : List String))
    (st : LogState) (path file : String) (se : GoBool)
    (fhOpened : Option FileHandle) (now : String) :
    (InitLogger st path file s se fhOpened now).1.LOG_LEVEL = st.LOG_LEVEL ∧
    (InitLogger defaultState path file s se fhOpened now).1.LOG_LEVEL = LOG_ERROR := by
  constructor
  · simp [InitLogger, switchLevel_unrecognized _ _ h]
  · simp [InitLogger, defaultState, switchLevel_unrecognized _ _ h]

/-- Witness for the amended C3 at concrete inputs. -/
theorem unrecognized_level_preserves_mask_witness :
    (InitLogger ⟨Option.none, "", 0xFF, true⟩ "/var/log" "x.log" "verbose" true
        Option.none "T").1.LOG_LEVEL = 0xFF ∧
    (InitLogger defaultState "/var/log" "x.log" "verbose" true Option.none
        "T").1.LOG_LEVEL = LOG_ERROR :=
  unrecognized_level_preserves_mask "verbose" (by decide) _ "/var/log" "x.log"
    true Option.none "T"

/-- C4: finalizing a non-ignored builder renders exactly one line — opening
brace, the time field holding the render-time timestamp, every accumulated
fragment in insertion order each followed by a comma, the message field with
the raw text always last, closing brace, newline — written to standard error
iff the stderr flag is set and to the file iff a handle is open; and a
builder made by a severity constructor followed by field setters accumulates
the level fragment first and then the field fragments in call order. -/
theorem msg_renders_single_json_line (x : Logger) (hx : x.ignore = false)
    (mask : Nat) (hmask : mask &&& LOG_ERROR = LOG_ERROR)
    (kvs : List (String × String)) (msg now : String) (se : GoBool)
    (fh : Option FileHandle) :
    x.Msg msg now se fh =
      { toStderr := if se then some ("\x7b" ++ ("\"time\":\"" ++ now ++ "\",")
            ++ commaJoined x.parts ++ ("\"message\":\"" ++ msg ++ "\"") ++ "\x7d" ++ "\n")
          else Option.none,
        toFile := if fh.isSome then some ("\x7b" ++ ("\"time\":\"" ++ now ++ "\",")
            ++ commaJoined x.parts ++ ("\"message\":\"" ++ msg ++ "\"") ++ "\x7d" ++ "\n")
          else Option.none } ∧
    (kvs.foldl (fun b kv => b.Str kv.1 kv.2) (Error mask)).parts
      = "\"level\":\"error\"" :: kvs.map (fun kv => frag kv.1 kv.2) := by
  constructor
  · cases fh with
    | none => simp [Logger.Msg, hx, renderLine_eq]
    | some f => simp [Logger.Msg, hx, renderLine_eq]
  · have hE : Error mask = { parts := ["\"level\":\"error\""], ignore := false } := by
      simp [Error, NewLogger, hmask]
    rw [hE, foldl_str_active _ _ rfl]
    simp

/-- Witness for C4 at concrete inputs. -/
theorem msg_renders_single_json_line_witness :
    (Error 1).Msg "boom" "T" true Option.none =
      { toStderr := some "\x7b\"time\":\"T\",\"level\":\"error\",\"message\":\"boom\"\x7d\n",
        toFile := Option.none } ∧
    ([("component", "x")].foldl (fun b kv => b.Str kv.1 kv.2) (Error 1)).parts
      = ["\"level\":\"error\"", "\"component\":\"x\""] := by
  have h := msg_renders_single_json_line (Error 1) (by decide) 1 (by decide)
    [("component", "x")] "boom" "T" true Option.none
  exact ⟨h.1.trans (by decide), h.2.trans (by decide)⟩

/-- C5: on a non-ignored builder, each value setter appends exactly one
fragment of the shape `"key":"value"` with the rendered value delimited by
double quotes — numbers and booleans become JSON strings, never native
number or boolean literals — and the returned builder keeps the same
fragments-so-far and ignore flag, allowing chaining. -/
theorem value_setters_quote_rendered_values (x : Logger) (h : x.ignore = false)
    (key : String) (i : GoInt) (j : GoInt) (f : GoFloat32) (b : GoBool) :
    x.Int key i = { x with parts := x.parts
        ++ ["\"" ++ key ++ "\":\"" ++ toString i ++ "\""] } ∧
    x.Int64 key j = { x with parts := x.parts
        ++ ["\"" ++ key ++ "\":\"" ++ toString j ++ "\""] } ∧
    x.Float key f = { x with parts := x.parts
        ++ ["\"" ++ key ++ "\":\"" ++ f.fmtF ++ "\""] } ∧
    x.Bool key b = { x with parts := x.parts
        ++ ["\"" ++ key ++ "\":\"" ++ (if b then "true" else "false") ++ "\""] } ∧
    (x.Int key i).ignore = x.ignore ∧ (x.Int64 key j).ignore = x.ignore ∧
    (x.Float key f).ignore = x.ignore ∧ (x.Bool key b).ignore = x.ignore := by
  cases x with
  | mk parts ignore =>
    simp only at h
    simp [Logger.Int, Logger.Int64, Logger.Float, Logger.Bool, frag, h]

/-- Witness for C5 at concrete inputs. -/
theorem value_setters_quote_rendered_values_witness :
    Fatal.Int "k" (-3) = (⟨["\"level\":\"fatal\"", "\"k\":\"-3\""], false⟩ : Logger) ∧
    Fatal.Bool "k" true = (⟨["\"level\":\"fatal\"", "\"k\":\"true\""], false⟩ : Logger) := by
  have h := value_setters_quote_rendered_values Fatal rfl "k" (-3) 9 ⟨"1.500000"⟩ true
  exact ⟨h.1.trans (by decide), (h.2.2.2.1).trans (by decide)⟩

/-- C6: passing an absent (nil) error to the error-field setter appends
nothing — the builder comes back unchanged, so no "error" key is ever
emitted for that call and no failure is raised. -/
theorem err_nil_appends_nothing (x : Logger) : x.Err Option.none = x := by
  simp [Logger.Err]

/-- C7: on a builder in the ignore state, every field setter returns the
builder unchanged for every argument value, and finalization writes nothing
to any sink. -/
theorem ignored_builder_noops (x : Logger) (h : x.ignore = true)
    (key value msg now : String) (i : GoInt) (f : GoFloat32) (b : GoBool)
    (e : Option String) (se : GoBool) (fh : Option FileHandle) :
    x.Str key value = x ∧ x.Int key i = x ∧ x.Int64 key i = x ∧
    x.Float key f = x ∧ x.Bool key b = x ∧ x.Err e = x ∧
    x.Msg msg now se fh = Output.none := by
  simp [Logger.Str, Logger.Int, Logger.Int64, Logger.Float, Logger.Bool,
    Logger.Err, Logger.Msg, h]

/-- Witness for C7 on the ignored builder `Info 0` (mask without the Info
bit). -/
theorem ignored_builder_noops_witness :
    (Info 0).Str "a" "b" = Info 0 ∧ (Info 0).Int "a" 7 = Info 0 ∧
    (Info 0).Int64 "a" 7 = Info 0 ∧ (Info 0).Float "a" ⟨"0.5"⟩ = Info 0 ∧
    (Info 0).Bool "a" true = Info 0 ∧ (Info 0).Err (some "e") = Info 0 ∧
    (Info 0).Msg "m" "T" true (some ⟨0⟩) = Output.none :=
  ignored_builder_noops (Info 0) (by decide) "a" "b" "m" "T" 7 ⟨"0.5"⟩ true
    (some "e") true (some ⟨0⟩)

/-- C8 counterexample: `Shutdown` on a state where no file was ever opened
(`LOG_FH` nil, as in the default state) does not fault: per the Go `os`
package contract, `Close` on a nil `*os.File` returns `ErrInvalid` instead
of dereferencing the receiver, and `Shutdown` discards that error. -/
theorem shutdown_without_file_counterexample :
    Shutdown defaultState ≠ CloseOutcome.fault ∧
    Shutdown defaultState = CloseOutcome.returned (some "invalid argument") := by
  decide

/-- C8 (amended): calling shutdown when no file was ever opened is safe —
the close call on the nil handle returns an invalid-argument error, which
shutdown discards; no dereference fault occurs. -/
theorem shutdown_without_file_returns_invalid (st : LogState)
    (h : st.LOG_FH = Option.none) :
    Shutdown st = CloseOutcome.returned (some "invalid argument") := by
  simp [Shutdown, osFileClose, h]

/-- Witness for the amended C8 at a concrete state. -/
theorem shutdown_without_file_returns_invalid_witness :
    Shutdown ⟨Option.none, "/tmp/a.log", 7, false⟩
      = CloseOutcome.returned (some "invalid argument") :=
  shutdown_without_file_returns_invalid _ rfl

/-- C9: initialization emits exactly one startup Info event carrying the
component name, the requested level name, and the resolved file path, and
that event goes through the normal filter and sinks: when the freshly
resolved mask does not bitwise-contain the Info bit (as for "error" or
"warn") the startup announcement produces no output at all; when it does,
the rendered line carries the three recorded fields and goes to the
configured sinks. -/
theorem startup_event_passes_normal_filter (st : LogState)
    (path file level : String) (se : GoBool) (fhOpened : Option FileHandle)
    (now : String) :
    (switchLevel st.LOG_LEVEL level &&& LOG_INFO ≠ LOG_INFO →
      (InitLogger st path file level se fhOpened now).2 = Output.none) ∧
    (switchLevel st.LOG_LEVEL level &&& LOG_INFO = LOG_INFO →
      (InitLogger st path file level se fhOpened now).2 =
        { toStderr := if se then some (renderLine ["\"level\":\"info\"",
              frag "component" "osintami", frag "level" level,
              frag "file" (path ++ "/" ++ file)] now "logging started")
            else Option.none,
          toFile := if (if file ≠ "" then fhOpened else st.LOG_FH).isSome then
              some (renderLine ["\"level\":\"info\"",
                frag "component" "osintami", frag "level" level,
                frag "file" (path ++ "/" ++ file)] now "logging started")
            else Option.none }) := by
  constructor
  · intro h
    simp [InitLogger, Info, NewLogger, Logger.Str, Logger.Msg, Output.none, h]
  · intro h
    cases hopt : (if file ≠ "" then fhOpened else st.LOG_FH) with
    | none =>
      simp [InitLogger, Info, NewLogger, Logger.Str, Logger.Msg, hopt, h]
    | some f =>
      simp [InitLogger, Info, NewLogger, Logger.Str, Logger.Msg, hopt, h]

/-- Witness for C9: with "warn" the startup event is suppressed; with "info"
it is emitted on stderr with the recorded fields. -/
theorem startup_event_passes_normal_filter_witness :
    (InitLogger defaultState "/tmp" "x.log" "warn" true Option.none "T").2
      = Output.none ∧
    (InitLogger defaultState "/tmp" "x.log" "info" true Option.none "T").2 =
      { toStderr := some "\x7b\"time\":\"T\",\"level\":\"info\",\"component\":\"osintami\",\"level\":\"info\",\"file\":\"/tmp/x.log\",\"message\":\"logging started\"\x7d\n",
        toFile := Option.none } := by
  constructor
  · exact (startup_event_passes_normal_filter defaultState "/tmp" "x.log" "warn"
      true Option.none "T").1 (by decide)
  · exact ((startup_event_passes_normal_filter defaultState "/tmp" "x.log" "info"
      true Option.none "T").2 (by decide)).trans (by decide)

/-- C10: a Fatal builder (with any chain of fields) is never ignored, and
finalizing it renders and writes the line exactly like any other active
builder, returning an ordinary result — the embedded `Msg` is a total
function with no exit or panic branch, faithful to the source, which
contains no process-terminating call; "fatal" is only the severity label. -/
theorem fatal_msg_renders_and_returns (kvs : List (String × String))
    (msg now : String) (se : GoBool) (fh : Option FileHandle) :
    (kvs.foldl (fun b kv => b.Str kv.1 kv.2) Fatal).ignore = false ∧
    (kvs.foldl (fun b kv => b.Str kv.1 kv.2) Fatal).Msg msg now se fh =
      { toStderr := if se then
            some (renderLine ("\"level\":\"fatal\""
              :: kvs.map (fun kv => frag kv.1 kv.2)) now msg)
          else Option.none,
        toFile := if fh.isSome then
            some (renderLine ("\"level\":\"fatal\""
              :: kvs.map (fun kv => frag kv.1 kv.2)) now msg)
          else Option.none } := by
  have hf : kvs.foldl (fun b kv => b.Str kv.1 kv.2) Fatal
      = { parts := "\"level\":\"fatal\"" :: kvs.map (fun kv => frag kv.1 kv.2),
          ignore := false } := by
    rw [foldl_str_active _ _ rfl]
    simp [Fatal]
  rw [hf]
  refine ⟨rfl, ?_⟩
  cases fh with
  | none => simp [Logger.Msg]
  | some f => simp [Logger.Msg]

end SloanLog
